import Mathlib

/-!
Verification of the contact repository core of a personal-contacts REST
service (`src/repository/contacts.py`).

The contact store is modelled as a list of rows in store order, the
database session as a `DB` record carrying the rows, the autoincrement
counter and the server clock.  Each repository function is translated
directly: SQLAlchemy `query().filter(...)` becomes `List.filter` with a
boolean predicate over the row, `.first()` becomes `List.head?`,
`.offset(skip).limit(limit)` becomes `List.drop`/`List.take`, and SQL
`UNION` becomes append followed by row de-duplication.  Python string
truthiness (`if first_name and ...`) tests that an optional filter is
present and non-empty.  Python `date` arithmetic is embedded via the
proleptic-Gregorian ordinal used by CPython (`_ymd2ord`), and
`date.replace(year=...)` returns `none` where CPython raises
`ValueError` (Feb 29 re-anchored to a non-leap year); the birthday scan
therefore returns `Except Unit _`, with `Except.error` standing for an
escaped `ValueError`.
-/

/-- Calendar date as CPython's `datetime.date` stores it (year ≥ 1). -/
structure Date where
  year : Nat
  month : Nat
  day : Nat
deriving DecidableEq, Repr

/-- Gregorian leap-year test, as in CPython `_is_leap`. -/
def isLeap (y : Nat) : Bool :=
  (y % 4 == 0 && y % 100 != 0) || y % 400 == 0

/-- Days in a month, as in CPython `_days_in_month`. -/
def daysInMonth (y m : Nat) : Nat :=
  if m == 2 then (if isLeap y then 29 else 28)
  else if m == 4 || m == 6 || m == 9 || m == 11 then 30
  else 31

/-- Days in the months strictly before month `m` of year `y`
(CPython `_days_before_month`). -/
def daysBeforeMonth (y m : Nat) : Nat :=
  (List.range (m - 1)).foldl (fun acc i => acc + daysInMonth y (i + 1)) 0

/-- Proleptic-Gregorian ordinal of a date (CPython `_ymd2ord`):
day 1 is January 1 of year 1.  Python's `date` subtraction returns the
difference of these ordinals as a day count. -/
def Date.toOrdinal (d : Date) : Nat :=
  365 * (d.year - 1) + (d.year - 1) / 4 - (d.year - 1) / 100 + (d.year - 1) / 400
    + daysBeforeMonth d.year d.month + d.day

/-- `date.replace(year=y)`: keeps month/day, revalidates them against the
new year; CPython raises `ValueError` (here `none`) when the day does not
exist in that month of the new year (Feb 29 → non-leap year). -/
def Date.replaceYear (d : Date) (y : Nat) : Option Date :=
  if 1 ≤ d.month ∧ d.month ≤ 12 ∧ 1 ≤ d.day ∧ d.day ≤ daysInMonth y d.month then
    some ⟨y, d.month, d.day⟩
  else none

/-- The authenticated user as the repository functions use it: only the
primary key is read (`user.id`). -/
structure User where
  id : Nat
deriving DecidableEq, Repr

/-- A row of the `contacts` table (`src/database/models.py` fields as
used by the repository and listed in the migrations). -/
structure Contact where
  id : Nat
  first_name : String
  last_name : String
  email : String
  phone : String
  date_of_birth : Date
  user_id : Nat
  created_at : Nat
deriving DecidableEq, Repr

/-- The request body `ContactModel` (`src/schemas.py`): the five
client-settable fields. -/
structure ContactModel where
  first_name : String
  last_name : String
  email : String
  phone : String
  date_of_birth : Date
deriving DecidableEq, Repr

/-- The database session: rows in store order, the autoincrement counter
for the contact primary key, and the server clock used for the
`created_at` column default. -/
structure DB where
  rows : List Contact
  next_id : Nat
  now : Nat
deriving Repr

/-- Python string truthiness of an `Optional[str]` parameter:
`None` and `''` are falsy, any non-empty string is truthy. -/
def truthy (o : Option String) : Bool :=
  match o with
  | none => false
  | some s => !s.isEmpty

/-- SQL equality of a non-null string column against an `Optional[str]`
bind value: comparison against `None` (`IS NULL`) never matches a
non-null column. -/
def fieldMatches (field : String) (flt : Option String) : Bool :=
  match flt with
  | none => false
  | some s => field == s

/-- SQL `UNION`: rows of both operands with exact-duplicate rows
removed. -/
def sqlUnion (xs ys : List Contact) : List Contact :=
  (xs ++ ys).dedup

/-- `get_contacts`: the three single-field queries are built owner-scoped,
then the truthiness of the filters selects which union (or the paginated
unfiltered listing) is returned. -/
def get_contacts (skip limit : Nat) (first_name last_name email : Option String)
    (user : User) (db : List Contact) : List Contact :=
  let first_name_query := db.filter
    (fun c => fieldMatches c.first_name first_name && c.user_id == user.id)
  let last_name_query := db.filter
    (fun c => fieldMatches c.last_name last_name && c.user_id == user.id)
  let email_query := db.filter
    (fun c => fieldMatches c.email email && c.user_id == user.id)
  if truthy first_name && truthy last_name && truthy email then
    sqlUnion (sqlUnion first_name_query last_name_query) email_query
  else if truthy first_name && truthy last_name then
    sqlUnion first_name_query last_name_query
  else if truthy first_name && truthy email then
    sqlUnion first_name_query email_query
  else if truthy last_name && truthy email then
    sqlUnion last_name_query email_query
  else if truthy first_name then first_name_query
  else if truthy last_name then last_name_query
  else if truthy email then email_query
  else ((db.filter (fun c => c.user_id == user.id)).drop skip).take limit

/-- `get_contact_by_id`: first row matching the id scoped to the owner,
or absent. -/
def get_contact_by_id (contact_id : Nat) (user : User) (db : List Contact) :
    Option Contact :=
  (db.filter (fun c => c.id == contact_id && c.user_id == user.id)).head?

/-- The page fetched by the birthday listing before filtering: the
owner's contacts in store order, with offset `skip` and page size
`limit`. -/
def ownerPage (skip limit : Nat) (user : User) (db : List Contact) : List Contact :=
  ((db.filter (fun c => c.user_id == user.id)).drop skip).take limit

/-- The loop body of `get_contacts_birthdays`: re-anchor each contact's
date of birth to the current year, keep it when the signed day difference
from today is in `[0, 7]`; a failed re-anchor escapes as the
`ValueError` CPython raises (`Except.error`). -/
def birthdaysLoop (today : Date) : List Contact → Except Unit (List Contact)
  | [] => Except.ok []
  | c :: rest =>
    match c.date_of_birth.replaceYear today.year with
    | none => Except.error ()
    | some anchored =>
      let td : Int := (anchored.toOrdinal : Int) - (today.toOrdinal : Int)
      if 0 ≤ td ∧ td ≤ 7 then
        (birthdaysLoop today rest).map (fun l => c :: l)
      else
        birthdaysLoop today rest

/-- `get_contacts_birthdays`: fetch the skip/limit page of the owner's
contacts, then filter it by the birthday window (`date.today()` is passed
explicitly as `today`). -/
def get_contacts_birthdays (skip limit : Nat) (user : User) (today : Date)
    (db : List Contact) : Except Unit (List Contact) :=
  birthdaysLoop today (ownerPage skip limit user db)

/-- The boolean birthday-window test a contact must pass to be kept by
`birthdaysLoop` (false where the re-anchor would raise). -/
def inBirthdayWindow (today : Date) (c : Contact) : Bool :=
  match c.date_of_birth.replaceYear today.year with
  | none => false
  | some anchored =>
    decide (0 ≤ (anchored.toOrdinal : Int) - (today.toOrdinal : Int) ∧
      (anchored.toOrdinal : Int) - (today.toOrdinal : Int) ≤ 7)

/-- `create_contact`: a new row from the body's five fields, owned by the
caller, with the generated primary key and the `created_at` default;
appended to the store. -/
def create_contact (body : ContactModel) (user : User) (db : DB) : Contact × DB :=
  let contact : Contact :=
    { id := db.next_id
      first_name := body.first_name
      last_name := body.last_name
      email := body.email
      phone := body.phone
      date_of_birth := body.date_of_birth
      user_id := user.id
      created_at := db.now }
  (contact, { db with rows := db.rows ++ [contact], next_id := db.next_id + 1 })

/-- Overwrite of the five mutable fields performed by `update_contact`
on the fetched row. -/
def applyBody (c : Contact) (body : ContactModel) : Contact :=
  { c with
    first_name := body.first_name
    last_name := body.last_name
    email := body.email
    phone := body.phone
    date_of_birth := body.date_of_birth }

/-- The ORM mutation of the first row satisfying `p` (the object returned
by `.first()`), leaving all other rows untouched. -/
def replaceFirst (p : Contact → Bool) (f : Contact → Contact) :
    List Contact → List Contact
  | [] => []
  | c :: rest => if p c then f c :: rest else c :: replaceFirst p f rest

/-- Deletion of the first row satisfying `p` (the object returned by
`.first()`). -/
def removeFirst (p : Contact → Bool) : List Contact → List Contact
  | [] => []
  | c :: rest => if p c then rest else c :: removeFirst p rest

/-- `update_contact`: re-fetch by (id, owner); absent → no-op returning
absent; present → overwrite the five fields and commit. -/
def update_contact (contact_id : Nat) (body : ContactModel) (user : User)
    (db : DB) : Option Contact × DB :=
  match (db.rows.filter (fun c => c.id == contact_id && c.user_id == user.id)).head? with
  | none => (none, db)
  | some contact =>
    let rows := replaceFirst
      (fun c => c.id == contact_id && c.user_id == user.id)
      (fun c => applyBody c body) db.rows
    (some (applyBody contact body), { db with rows := rows })

/-- `remove_contact`: re-fetch by (id, owner); absent → no-op returning
absent; present → delete the row and return it as it was. -/
def remove_contact (contact_id : Nat) (user : User) (db : DB) :
    Option Contact × DB :=
  match (db.rows.filter (fun c => c.id == contact_id && c.user_id == user.id)).head? with
  | none => (none, db)
  | some contact =>
    let rows := removeFirst
      (fun c => c.id == contact_id && c.user_id == user.id) db.rows
    (some contact, { db with rows := rows })

theorem truthy_some_of_ne {s : String} (h : s ≠ "") : truthy (some s) = true := by
  have he : s.isEmpty = false := by
    cases he : s.isEmpty
    · rfl
    · exact absurd ((String.isEmpty_iff s).mp he) h
  simp [truthy, he]

theorem mem_sqlUnion {c : Contact} {xs ys : List Contact} :
    c ∈ sqlUnion xs ys ↔ c ∈ xs ∨ c ∈ ys := by
  simp [sqlUnion, List.mem_dedup]

theorem sqlUnion_nodup (xs ys : List Contact) : (sqlUnion xs ys).Nodup :=
  List.nodup_dedup _

theorem mem_ownerPage {skip limit : Nat} {user : User} {db : List Contact}
    {c : Contact} (h : c ∈ ownerPage skip limit user db) :
    c ∈ db ∧ c.user_id = user.id := by
  unfold ownerPage at h
  have h1 := List.mem_of_mem_drop (List.mem_of_mem_take h)
  have h2 := List.mem_filter.mp h1
  exact ⟨h2.1, by simpa using h2.2⟩

theorem get_contacts_user_eq {skip limit : Nat} {fn ln em : Option String}
    {user : User} {db : List Contact} {c : Contact}
    (h : c ∈ get_contacts skip limit fn ln em user db) : c.user_id = user.id := by
  unfold get_contacts at h
  repeat' split at h
  all_goals
    simp only [mem_sqlUnion, List.mem_filter, Bool.and_eq_true, beq_iff_eq] at h
  case _ =>
    rcases h with (⟨_, _, h⟩ | ⟨_, _, h⟩) | ⟨_, _, h⟩ <;> exact h
  case _ =>
    rcases h with ⟨_, _, h⟩ | ⟨_, _, h⟩ <;> exact h
  case _ =>
    rcases h with ⟨_, _, h⟩ | ⟨_, _, h⟩ <;> exact h
  case _ =>
    rcases h with ⟨_, _, h⟩ | ⟨_, _, h⟩ <;> exact h
  case _ => exact h.2.2
  case _ => exact h.2.2
  case _ => exact h.2.2
  case _ =>
    have h1 := List.mem_of_mem_drop (List.mem_of_mem_take h)
    have h2 := List.mem_filter.mp h1
    simpa using h2.2

theorem get_contact_by_id_user_eq {i : Nat} {user : User} {db : List Contact}
    {c : Contact} (h : get_contact_by_id i user db = some c) :
    c.user_id = user.id := by
  unfold get_contact_by_id at h
  have h1 := List.mem_filter.mp (List.mem_of_mem_head? h)
  have h2 := h1.2
  simp only [Bool.and_eq_true, beq_iff_eq] at h2
  exact h2.2

theorem birthdaysLoop_ok_mem {today : Date} {l res : List Contact}
    (h : birthdaysLoop today l = Except.ok res) :
    ∀ c ∈ res, c ∈ l ∧ inBirthdayWindow today c = true := by
  induction l generalizing res with
  | nil =>
    simp only [birthdaysLoop, Except.ok.injEq] at h
    subst h
    intro c hc
    exact absurd hc (List.not_mem_nil c)
  | cons x rest ih =>
    cases hy : x.date_of_birth.replaceYear today.year with
    | none =>
      simp only [birthdaysLoop, hy] at h
      exact Except.noConfusion h
    | some anchored =>
      simp only [birthdaysLoop, hy] at h
      by_cases hw : 0 ≤ (anchored.toOrdinal : Int) - (today.toOrdinal : Int) ∧
          (anchored.toOrdinal : Int) - (today.toOrdinal : Int) ≤ 7
      · rw [if_pos hw] at h
        cases hrest : birthdaysLoop today rest with
        | error e =>
          rw [hrest] at h
          exact Except.noConfusion h
        | ok res' =>
          rw [hrest] at h
          simp only [Except.map, Except.ok.injEq] at h
          subst h
          intro c hc
          rcases List.mem_cons.mp hc with hc | hc
          · subst hc
            refine ⟨List.mem_cons_self _ _, ?_⟩
            unfold inBirthdayWindow
            rw [hy]
            exact decide_eq_true hw
          · have := ih hrest c hc
            exact ⟨List.mem_cons_of_mem _ this.1, this.2⟩
      · rw [if_neg hw] at h
        intro c hc
        have := ih h c hc
        exact ⟨List.mem_cons_of_mem _ this.1, this.2⟩

theorem get_contacts_birthdays_user_eq {skip limit : Nat} {user : User}
    {today : Date} {db : List Contact} {l : List Contact}
    (h : get_contacts_birthdays skip limit user today db = Except.ok l) :
    ∀ c ∈ l, c.user_id = user.id := by
  intro c hc
  have := (birthdaysLoop_ok_mem h c hc).1
  exact (mem_ownerPage this).2

/-- C1: a contact owned by U1 is never returned to a distinct owner U2 by
the filtered/unfiltered listing, the read-by-id, or the birthday
listing, whatever the ids, filters, pagination or field values. -/
theorem cross_user_isolation (U1 U2 : User) (hU : U1.id ≠ U2.id)
    (c : Contact) (hc : c.user_id = U1.id) (skip limit i : Nat)
    (fn ln em : Option String) (today : Date) (db : List Contact) :
    c ∉ get_contacts skip limit fn ln em U2 db ∧
    get_contact_by_id i U2 db ≠ some c ∧
    (∀ l, get_contacts_birthdays skip limit U2 today db = Except.ok l → c ∉ l) := by
  refine ⟨?_, ?_, ?_⟩
  · intro h
    exact hU (hc ▸ get_contacts_user_eq h)
  · intro h
    exact hU (hc ▸ get_contact_by_id_user_eq h)
  · intro l hl h
    exact hU (hc ▸ get_contacts_birthdays_user_eq hl c h)

/-- Witness for C1 at concrete owners 1 ≠ 2 and a concrete store. -/
theorem cross_user_isolation_witness :
    (1 : Nat) ≠ 2 ∧
    ({ id := 5, first_name := "a", last_name := "b", email := "e", phone := "p",
       date_of_birth := ⟨1994, 5, 5⟩, user_id := 1, created_at := 0 } : Contact).user_id = 1 ∧
    ({ id := 5, first_name := "a", last_name := "b", email := "e", phone := "p",
       date_of_birth := ⟨1994, 5, 5⟩, user_id := 1, created_at := 0 } : Contact) ∉
      get_contacts 0 10 (some "a") none none ⟨2⟩
        [{ id := 5, first_name := "a", last_name := "b", email := "e", phone := "p",
           date_of_birth := ⟨1994, 5, 5⟩, user_id := 1, created_at := 0 }] := by
  refine ⟨by decide, rfl, ?_⟩
  exact (cross_user_isolation ⟨1⟩ ⟨2⟩ (by decide) _ rfl 0 10 5 (some "a") none none
    ⟨2024, 5, 5⟩ _).1

/-- C2: with all three filters present and non-empty, the listing is
exactly the de-duplicated union of the owner's exact matches on
first name, last name and email, each contact appearing at most once. -/
theorem get_contacts_all_filters (skip limit : Nat) (fn ln em : String)
    (hfn : fn ≠ "") (hln : ln ≠ "") (hem : em ≠ "")
    (user : User) (db : List Contact) :
    (∀ c, c ∈ get_contacts skip limit (some fn) (some ln) (some em) user db ↔
      c ∈ db ∧ c.user_id = user.id ∧
        (c.first_name = fn ∨ c.last_name = ln ∨ c.email = em)) ∧
    (get_contacts skip limit (some fn) (some ln) (some em) user db).Nodup := by
  have hq : get_contacts skip limit (some fn) (some ln) (some em) user db =
      sqlUnion (sqlUnion
        (db.filter (fun c => (c.first_name == fn) && c.user_id == user.id))
        (db.filter (fun c => (c.last_name == ln) && c.user_id == user.id)))
        (db.filter (fun c => (c.email == em) && c.user_id == user.id)) := by
    unfold get_contacts
    rw [truthy_some_of_ne hfn, truthy_some_of_ne hln, truthy_some_of_ne hem]
    rfl
  rw [hq]
  refine ⟨?_, sqlUnion_nodup _ _⟩
  intro c
  simp only [mem_sqlUnion, List.mem_filter, Bool.and_eq_true, beq_iff_eq]
  tauto

/-- Witness for C2 at a concrete store where one contact matches two of
the three filters at once. -/
theorem get_contacts_all_filters_witness :
    ("x" : String) ≠ "" ∧ ("y" : String) ≠ "" ∧ ("z" : String) ≠ "" ∧
    ((∀ c, c ∈ get_contacts 0 10 (some "x") (some "y") (some "z") ⟨1⟩
        [{ id := 1, first_name := "x", last_name := "y", email := "q", phone := "p",
           date_of_birth := ⟨1994, 5, 5⟩, user_id := 1, created_at := 0 }] ↔
      c ∈ [{ id := 1, first_name := "x", last_name := "y", email := "q", phone := "p",
             date_of_birth := ⟨1994, 5, 5⟩, user_id := 1, created_at := 0 }] ∧
        c.user_id = 1 ∧
        (c.first_name = "x" ∨ c.last_name = "y" ∨ c.email = "z")) ∧
    (get_contacts 0 10 (some "x") (some "y") (some "z") ⟨1⟩
        [{ id := 1, first_name := "x", last_name := "y", email := "q", phone := "p",
           date_of_birth := ⟨1994, 5, 5⟩, user_id := 1, created_at := 0 }]).Nodup) :=
  ⟨by decide, by decide, by decide,
    get_contacts_all_filters 0 10 "x" "y" "z" (by decide) (by decide) (by decide) ⟨1⟩ _⟩

theorem birthdaysLoop_eq_filter {today : Date} {l : List Contact}
    (h : ∀ c ∈ l, (c.date_of_birth.replaceYear today.year).isSome) :
    birthdaysLoop today l = Except.ok (l.filter (inBirthdayWindow today)) := by
  induction l with
  | nil => rfl
  | cons x rest ih =>
    have hx := h x (List.mem_cons_self x rest)
    have hrest := ih (fun c hc => h c (List.mem_cons_of_mem x hc))
    cases hy : x.date_of_birth.replaceYear today.year with
    | none => rw [hy] at hx; exact absurd hx (by simp)
    | some anchored =>
      by_cases hw : 0 ≤ (anchored.toOrdinal : Int) - (today.toOrdinal : Int) ∧
          (anchored.toOrdinal : Int) - (today.toOrdinal : Int) ≤ 7
      · have hbw : inBirthdayWindow today x = true := by
          unfold inBirthdayWindow
          rw [hy]
          exact decide_eq_true hw
        simp only [birthdaysLoop, hy, if_pos hw, hrest, Except.map]
        simp [List.filter_cons, hbw]
      · have hbw : inBirthdayWindow today x = false := by
          unfold inBirthdayWindow
          rw [hy]
          exact decide_eq_false hw
        simp only [birthdaysLoop, hy, if_neg hw, hrest]
        simp [List.filter_cons, hbw]

/-- C3: the birthday listing fetches the skip/limit page of the owner's
contacts first and then filters it, keeping exactly the contacts whose
re-anchored birthday lies 0 to 7 days (inclusive) after today; the
result is a subsequence of the fetched page in its original order. -/
theorem birthdays_fetch_then_filter (skip limit : Nat) (user : User)
    (today : Date) (db : List Contact)
    (h : ∀ c ∈ ownerPage skip limit user db,
      (c.date_of_birth.replaceYear today.year).isSome) :
    get_contacts_birthdays skip limit user today db =
      Except.ok ((ownerPage skip limit user db).filter (inBirthdayWindow today)) ∧
    ((ownerPage skip limit user db).filter (inBirthdayWindow today)).Sublist
      (ownerPage skip limit user db) ∧
    (∀ c ∈ ownerPage skip limit user db, ∀ anchored : Date,
      c.date_of_birth.replaceYear today.year = some anchored →
      (c ∈ (ownerPage skip limit user db).filter (inBirthdayWindow today) ↔
        (0 ≤ (anchored.toOrdinal : Int) - (today.toOrdinal : Int) ∧
          (anchored.toOrdinal : Int) - (today.toOrdinal : Int) ≤ 7))) := by
  refine ⟨birthdaysLoop_eq_filter h, List.filter_sublist _, ?_⟩
  intro c hc anchored ha
  rw [List.mem_filter]
  constructor
  · intro hf
    have hv := hf.2
    unfold inBirthdayWindow at hv
    rw [ha] at hv
    exact of_decide_eq_true hv
  · intro hw
    refine ⟨hc, ?_⟩
    unfold inBirthdayWindow
    rw [ha]
    exact decide_eq_true hw

/-- Witness for C3: today 2024-05-05; birthdays May 5 (diff 0, kept),
May 12 (diff 7, kept), May 13 (diff 8, dropped). -/
theorem birthdays_fetch_then_filter_witness :
    (∀ c ∈ ownerPage 0 10 ⟨1⟩
        [{ id := 1, first_name := "a", last_name := "b", email := "e", phone := "p",
           date_of_birth := ⟨1994, 5, 5⟩, user_id := 1, created_at := 0 },
         { id := 2, first_name := "c", last_name := "d", email := "f", phone := "q",
           date_of_birth := ⟨1990, 5, 12⟩, user_id := 1, created_at := 0 },
         { id := 3, first_name := "g", last_name := "h", email := "i", phone := "r",
           date_of_birth := ⟨1990, 5, 13⟩, user_id := 1, created_at := 0 }],
      (c.date_of_birth.replaceYear (2024 : Nat)).isSome) ∧
    get_contacts_birthdays 0 10 ⟨1⟩ ⟨2024, 5, 5⟩
        [{ id := 1, first_name := "a", last_name := "b", email := "e", phone := "p",
           date_of_birth := ⟨1994, 5, 5⟩, user_id := 1, created_at := 0 },
         { id := 2, first_name := "c", last_name := "d", email := "f", phone := "q",
           date_of_birth := ⟨1990, 5, 12⟩, user_id := 1, created_at := 0 },
         { id := 3, first_name := "g", last_name := "h", email := "i", phone := "r",
           date_of_birth := ⟨1990, 5, 13⟩, user_id := 1, created_at := 0 }] =
      Except.ok ((ownerPage 0 10 ⟨1⟩
        [{ id := 1, first_name := "a", last_name := "b", email := "e", phone := "p",
           date_of_birth := ⟨1994, 5, 5⟩, user_id := 1, created_at := 0 },
         { id := 2, first_name := "c", last_name := "d", email := "f", phone := "q",
           date_of_birth := ⟨1990, 5, 12⟩, user_id := 1, created_at := 0 },
         { id := 3, first_name := "g", last_name := "h", email := "i", phone := "r",
           date_of_birth := ⟨1990, 5, 13⟩, user_id := 1, created_at := 0 }]).filter
        (inBirthdayWindow ⟨2024, 5, 5⟩)) :=
  ⟨by decide,
    (birthdays_fetch_then_filter 0 10 ⟨1⟩ ⟨2024, 5, 5⟩ _ (by decide)).1⟩

/-- C4: when no row matches (id, owner), update and delete both report
absence and return the store untouched — no partial write, no removal. -/
theorem missing_id_noop (i : Nat) (body : ContactModel) (user : User) (db : DB)
    (h : ∀ c ∈ db.rows, ¬(c.id = i ∧ c.user_id = user.id)) :
    update_contact i body user db = (none, db) ∧
    remove_contact i user db = (none, db) := by
  have hf : db.rows.filter (fun c => c.id == i && c.user_id == user.id) = [] := by
    rw [List.filter_eq_nil_iff]
    intro c hc
    simp only [Bool.and_eq_true, beq_iff_eq, not_and]
    intro h1 h2
    exact h c hc ⟨h1, h2⟩
  constructor
  · unfold update_contact
    rw [hf]
    rfl
  · unfold remove_contact
    rw [hf]
    rfl

/-- Witness for C4: id 9 matches nothing in a one-row store owned by
user 1. -/
theorem missing_id_noop_witness :
    (∀ c ∈ (DB.mk
        [{ id := 1, first_name := "a", last_name := "b", email := "e", phone := "p",
           date_of_birth := ⟨1994, 5, 5⟩, user_id := 1, created_at := 0 }] 2 0).rows,
      ¬(c.id = 9 ∧ c.user_id = (1 : Nat))) ∧
    update_contact 9 ⟨"n", "m", "f", "q", ⟨1990, 1, 1⟩⟩ ⟨1⟩
        (DB.mk
          [{ id := 1, first_name := "a", last_name := "b", email := "e", phone := "p",
             date_of_birth := ⟨1994, 5, 5⟩, user_id := 1, created_at := 0 }] 2 0) =
      (none, DB.mk
        [{ id := 1, first_name := "a", last_name := "b", email := "e", phone := "p",
           date_of_birth := ⟨1994, 5, 5⟩, user_id := 1, created_at := 0 }] 2 0) ∧
    remove_contact 9 ⟨1⟩
        (DB.mk
          [{ id := 1, first_name := "a", last_name := "b", email := "e", phone := "p",
             date_of_birth := ⟨1994, 5, 5⟩, user_id := 1, created_at := 0 }] 2 0) =
      (none, DB.mk
        [{ id := 1, first_name := "a", last_name := "b", email := "e", phone := "p",
           date_of_birth := ⟨1994, 5, 5⟩, user_id := 1, created_at := 0 }] 2 0) :=
  ⟨by decide,
    (missing_id_noop 9 ⟨"n", "m", "f", "q", ⟨1990, 1, 1⟩⟩ ⟨1⟩ _ (by decide)).1,
    (missing_id_noop 9 ⟨"n", "m", "f", "q", ⟨1990, 1, 1⟩⟩ ⟨1⟩ _ (by decide)).2⟩

/-- C5: a contact whose birthday, re-anchored to the current year, falls
strictly before today is excluded from the birthday listing — the
year-boundary wraparound (e.g. today Dec 29, birthday Jan 2) is not
special-cased. -/
theorem wraparound_excluded (skip limit : Nat) (user : User) (today : Date)
    (db : List Contact) (c : Contact) (anchored : Date)
    (ha : c.date_of_birth.replaceYear today.year = some anchored)
    (hlt : anchored.toOrdinal < today.toOrdinal) (l : List Contact)
    (hres : get_contacts_birthdays skip limit user today db = Except.ok l) :
    c ∉ l := by
  intro hc
  have hw := (birthdaysLoop_ok_mem hres c hc).2
  unfold inBirthdayWindow at hw
  rw [ha] at hw
  have h0 := (of_decide_eq_true hw).1
  omega

/-- Witness for C5: today 2023-12-29, birthday Jan 2 (next occurrence
4 days away, across the year boundary): the listing is empty. -/
theorem wraparound_excluded_witness :
    Date.replaceYear ⟨2000, 1, 2⟩ 2023 = some ⟨2023, 1, 2⟩ ∧
    Date.toOrdinal ⟨2023, 1, 2⟩ < Date.toOrdinal ⟨2023, 12, 29⟩ ∧
    get_contacts_birthdays 0 10 ⟨1⟩ ⟨2023, 12, 29⟩
        [{ id := 1, first_name := "a", last_name := "b", email := "e", phone := "p",
           date_of_birth := ⟨2000, 1, 2⟩, user_id := 1, created_at := 0 }] =
      Except.ok [] ∧
    ({ id := 1, first_name := "a", last_name := "b", email := "e", phone := "p",
       date_of_birth := ⟨2000, 1, 2⟩, user_id := 1, created_at := 0 } : Contact) ∉
      ([] : List Contact) :=
  ⟨by decide, by decide, rfl,
    wraparound_excluded 0 10 ⟨1⟩ ⟨2023, 12, 29⟩
      [{ id := 1, first_name := "a", last_name := "b", email := "e", phone := "p",
         date_of_birth := ⟨2000, 1, 2⟩, user_id := 1, created_at := 0 }]
      { id := 1, first_name := "a", last_name := "b", email := "e", phone := "p",
        date_of_birth := ⟨2000, 1, 2⟩, user_id := 1, created_at := 0 }
      ⟨2023, 1, 2⟩ (by decide) (by decide) [] rfl⟩

/-- C6: the code has no Feb 29 fallback: re-anchoring a Feb 29 birthday
to the non-leap year 2023 makes `date.replace` raise `ValueError`
(modelled `Except.error`), so the birthday listing fails instead of
returning normally with a fallback date. -/
theorem feb29_nonleap_raises :
    get_contacts_birthdays 0 10 ⟨1⟩ ⟨2023, 5, 5⟩
        [{ id := 1, first_name := "a", last_name := "b", email := "e", phone := "p",
           date_of_birth := ⟨1996, 2, 29⟩, user_id := 1, created_at := 0 }] =
      Except.error () := rfl

/-- C7: skip/limit are honored only in the no-filter branch: with one
active filter the full owner-scoped exact-match set is returned, with no
filter the owner's contacts are paged by skip/limit (hence at most
`limit` rows). -/
theorem pagination_only_unfiltered (skip limit : Nat) (fn ln em : String)
    (user : User) (db : List Contact)
    (hfn : fn ≠ "") (hln : ln ≠ "") (hem : em ≠ "") :
    (get_contacts skip limit (some fn) none none user db =
      db.filter (fun c => (c.first_name == fn) && c.user_id == user.id)) ∧
    (get_contacts skip limit none (some ln) none user db =
      db.filter (fun c => (c.last_name == ln) && c.user_id == user.id)) ∧
    (get_contacts skip limit none none (some em) user db =
      db.filter (fun c => (c.email == em) && c.user_id == user.id)) ∧
    (get_contacts skip limit none none none user db =
      ((db.filter (fun c => c.user_id == user.id)).drop skip).take limit) ∧
    (get_contacts skip limit none none none user db).length ≤ limit := by
  have h4 : get_contacts skip limit none none none user db =
      ((db.filter (fun c => c.user_id == user.id)).drop skip).take limit := rfl
  refine ⟨?_, ?_, ?_, h4, ?_⟩
  · unfold get_contacts
    rw [truthy_some_of_ne hfn]
    rfl
  · unfold get_contacts
    rw [truthy_some_of_ne hln]
    rfl
  · unfold get_contacts
    rw [truthy_some_of_ne hem]
    rfl
  · rw [h4]
    simp [List.length_take]

/-- Witness for C7 at skip 5, limit 0: the active-filter call still
returns the matching row. -/
theorem pagination_only_unfiltered_witness :
    ("x" : String) ≠ "" ∧ ("y" : String) ≠ "" ∧ ("z" : String) ≠ "" ∧
    (get_contacts 5 0 (some "x") none none ⟨1⟩
        [{ id := 1, first_name := "x", last_name := "y", email := "z", phone := "p",
           date_of_birth := ⟨1994, 5, 5⟩, user_id := 1, created_at := 0 }] =
      List.filter (fun c => (c.first_name == "x") && c.user_id == (1 : Nat))
        [{ id := 1, first_name := "x", last_name := "y", email := "z", phone := "p",
           date_of_birth := ⟨1994, 5, 5⟩, user_id := 1, created_at := 0 }]) ∧
    (get_contacts 5 0 none none none ⟨1⟩
        [{ id := 1, first_name := "x", last_name := "y", email := "z", phone := "p",
           date_of_birth := ⟨1994, 5, 5⟩, user_id := 1, created_at := 0 }]).length ≤ 0 :=
  ⟨by decide, by decide, by decide,
    (pagination_only_unfiltered 5 0 "x" "y" "z" ⟨1⟩ _
      (by decide) (by decide) (by decide)).1,
    (pagination_only_unfiltered 5 0 "x" "y" "z" ⟨1⟩ _
      (by decide) (by decide) (by decide)).2.2.2.2⟩

/-- C8: passing an empty-string filter gives exactly the same listing as
passing that filter absent (`None`), in every position and whatever the
other filters are — an empty string is never matched literally. -/
theorem empty_filter_is_absent (skip limit : Nat) (fn ln em : Option String)
    (user : User) (db : List Contact) :
    get_contacts skip limit (some "") ln em user db =
      get_contacts skip limit none ln em user db ∧
    get_contacts skip limit fn (some "") em user db =
      get_contacts skip limit fn none em user db ∧
    get_contacts skip limit fn ln (some "") user db =
      get_contacts skip limit fn ln none user db := by
  refine ⟨?_, ?_, ?_⟩
  · unfold get_contacts
    cases hln : truthy ln <;> cases hem : truthy em <;> rfl
  · unfold get_contacts
    cases hfn : truthy fn <;> cases hem : truthy em <;> rfl
  · unfold get_contacts
    cases hfn : truthy fn <;> cases hln : truthy ln <;> rfl

theorem filter_append_singleton_head {p : Contact → Bool} {l : List Contact}
    {c : Contact} (hl : l.filter p = []) (hc : p c = true) :
    ((l ++ [c]).filter p).head? = some c := by
  rw [List.filter_append, hl]
  simp [List.filter_cons, hc]

/-- C9: create always yields a contact (no absent result), and an
immediate read-by-id on its id with the same owner returns it with the
five supplied field values intact, provided the generated id is fresh in
the store (primary-key uniqueness). -/
theorem create_then_read_roundtrip (body : ContactModel) (user : User) (db : DB)
    (hfresh : ∀ c ∈ db.rows, c.id ≠ db.next_id) :
    ∀ c db', create_contact body user db = (c, db') →
      get_contact_by_id c.id user db'.rows = some c ∧
      c.first_name = body.first_name ∧ c.last_name = body.last_name ∧
      c.email = body.email ∧ c.phone = body.phone ∧
      c.date_of_birth = body.date_of_birth := by
  intro c db' h
  unfold create_contact at h
  obtain ⟨rfl, rfl⟩ := (Prod.mk.injEq _ _ _ _).mp h
  refine ⟨?_, rfl, rfl, rfl, rfl, rfl⟩
  unfold get_contact_by_id
  have hnil : db.rows.filter
      (fun x => x.id == db.next_id && x.user_id == user.id) = [] := by
    rw [List.filter_eq_nil_iff]
    intro x hx
    simp only [Bool.and_eq_true, beq_iff_eq, not_and]
    intro h1 _
    exact absurd h1 (hfresh x hx)
  exact filter_append_singleton_head hnil (by simp)

/-- Witness for C9: create into a store already holding contact id 1,
next id 2. -/
theorem create_then_read_roundtrip_witness :
    (∀ c ∈ (DB.mk
        [{ id := 1, first_name := "a", last_name := "b", email := "e", phone := "p",
           date_of_birth := ⟨1994, 5, 5⟩, user_id := 1, created_at := 0 }] 2 7).rows,
      c.id ≠ 2) ∧
    (∀ c db', create_contact ⟨"n", "m", "f", "q", ⟨1990, 1, 1⟩⟩ ⟨1⟩
        (DB.mk
          [{ id := 1, first_name := "a", last_name := "b", email := "e", phone := "p",
             date_of_birth := ⟨1994, 5, 5⟩, user_id := 1, created_at := 0 }] 2 7) =
        (c, db') →
      get_contact_by_id c.id ⟨1⟩ db'.rows = some c ∧
      c.first_name = "n" ∧ c.last_name = "m" ∧
      c.email = "f" ∧ c.phone = "q" ∧
      c.date_of_birth = ⟨1990, 1, 1⟩) :=
  ⟨by decide,
    create_then_read_roundtrip ⟨"n", "m", "f", "q", ⟨1990, 1, 1⟩⟩ ⟨1⟩ _ (by decide)⟩

theorem replaceFirst_eq_set {p : Contact → Bool} {f : Contact → Contact}
    {l : List Contact} {c : Contact} (h : (l.filter p).head? = some c) :
    ∃ k, l.get? k = some c ∧ replaceFirst p f l = l.set k (f c) := by
  induction l with
  | nil => simp [List.filter] at h
  | cons x rest ih =>
    rw [List.filter_cons] at h
    by_cases hx : p x
    · rw [if_pos hx] at h
      simp only [List.head?, Option.some.injEq] at h
      subst h
      exact ⟨0, rfl, by simp [replaceFirst, hx]⟩
    · rw [if_neg hx] at h
      obtain ⟨k, hk1, hk2⟩ := ih h
      refine ⟨k + 1, by simpa using hk1, ?_⟩
      simp only [replaceFirst, if_neg hx, hk2]
      rfl

/-- C10: on an existing (id, owner) match, update rewrites exactly that
row with the body's five fields, leaving its id, owner reference and
created_at — and every other row of the store — unchanged. -/
theorem update_contact_frame (i : Nat) (body : ContactModel) (user : User)
    (db : DB) (c : Contact)
    (h : (db.rows.filter (fun r => r.id == i && r.user_id == user.id)).head? =
      some c) :
    ∃ k, db.rows.get? k = some c ∧
      update_contact i body user db =
        (some (applyBody c body),
          { db with rows := db.rows.set k (applyBody c body) }) ∧
      (applyBody c body).id = c.id ∧
      (applyBody c body).user_id = c.user_id ∧
      (applyBody c body).created_at = c.created_at ∧
      (applyBody c body).first_name = body.first_name ∧
      (applyBody c body).last_name = body.last_name ∧
      (applyBody c body).email = body.email ∧
      (applyBody c body).phone = body.phone ∧
      (applyBody c body).date_of_birth = body.date_of_birth ∧
      ∀ j, j ≠ k → (db.rows.set k (applyBody c body)).get? j = db.rows.get? j := by
  obtain ⟨k, hk1, hk2⟩ :=
    replaceFirst_eq_set (f := fun r => applyBody r body) h
  refine ⟨k, hk1, ?_, rfl, rfl, rfl, rfl, rfl, rfl, rfl, rfl, ?_⟩
  · unfold update_contact
    rw [h, hk2]
  · intro j hj
    simp [List.get?_eq_getElem?, List.getElem?_set_ne (Ne.symm hj)]

/-- Witness for C10: a two-row store; the row with id 2 is updated, the
row with id 1 is untouched. -/
theorem update_contact_frame_witness :
    ((DB.mk
        [{ id := 1, first_name := "a", last_name := "b", email := "e", phone := "p",
           date_of_birth := ⟨1994, 5, 5⟩, user_id := 1, created_at := 3 },
         { id := 2, first_name := "c", last_name := "d", email := "f", phone := "q",
           date_of_birth := ⟨1990, 1, 1⟩, user_id := 1, created_at := 4 }] 3 7).rows.filter
      (fun r => r.id == 2 && r.user_id == (1 : Nat))).head? =
      some { id := 2, first_name := "c", last_name := "d", email := "f", phone := "q",
             date_of_birth := ⟨1990, 1, 1⟩, user_id := 1, created_at := 4 } ∧
    ∃ k, (DB.mk
        [{ id := 1, first_name := "a", last_name := "b", email := "e", phone := "p",
           date_of_birth := ⟨1994, 5, 5⟩, user_id := 1, created_at := 3 },
         { id := 2, first_name := "c", last_name := "d", email := "f", phone := "q",
           date_of_birth := ⟨1990, 1, 1⟩, user_id := 1, created_at := 4 }] 3 7).rows.get? k =
        some { id := 2, first_name := "c", last_name := "d", email := "f", phone := "q",
               date_of_birth := ⟨1990, 1, 1⟩, user_id := 1, created_at := 4 } ∧
      update_contact 2 ⟨"n", "m", "g", "r", ⟨1991, 2, 2⟩⟩ ⟨1⟩
          (DB.mk
            [{ id := 1, first_name := "a", last_name := "b", email := "e", phone := "p",
               date_of_birth := ⟨1994, 5, 5⟩, user_id := 1, created_at := 3 },
             { id := 2, first_name := "c", last_name := "d", email := "f", phone := "q",
               date_of_birth := ⟨1990, 1, 1⟩, user_id := 1, created_at := 4 }] 3 7) =
        (some (applyBody
            { id := 2, first_name := "c", last_name := "d", email := "f", phone := "q",
              date_of_birth := ⟨1990, 1, 1⟩, user_id := 1, created_at := 4 }
            ⟨"n", "m", "g", "r", ⟨1991, 2, 2⟩⟩),
          { DB.mk
            [{ id := 1, first_name := "a", last_name := "b", email := "e", phone := "p",
               date_of_birth := ⟨1994, 5, 5⟩, user_id := 1, created_at := 3 },
             { id := 2, first_name := "c", last_name := "d", email := "f", phone := "q",
               date_of_birth := ⟨1990, 1, 1⟩, user_id := 1, created_at := 4 }] 3 7 with
            rows := (DB.mk
              [{ id := 1, first_name := "a", last_name := "b", email := "e", phone := "p",
                 date_of_birth := ⟨1994, 5, 5⟩, user_id := 1, created_at := 3 },
               { id := 2, first_name := "c", last_name := "d", email := "f", phone := "q",
                 date_of_birth := ⟨1990, 1, 1⟩, user_id := 1, created_at := 4 }] 3 7).rows.set k
              (applyBody
                { id := 2, first_name := "c", last_name := "d", email := "f", phone := "q",
                  date_of_birth := ⟨1990, 1, 1⟩, user_id := 1, created_at := 4 }
                ⟨"n", "m", "g", "r", ⟨1991, 2, 2⟩⟩) }) ∧
      (applyBody
          { id := 2, first_name := "c", last_name := "d", email := "f", phone := "q",
            date_of_birth := ⟨1990, 1, 1⟩, user_id := 1, created_at := 4 }
          ⟨"n", "m", "g", "r", ⟨1991, 2, 2⟩⟩).id = 2 ∧
      (applyBody
          { id := 2, first_name := "c", last_name := "d", email := "f", phone := "q",
            date_of_birth := ⟨1990, 1, 1⟩, user_id := 1, created_at := 4 }
          ⟨"n", "m", "g", "r", ⟨1991, 2, 2⟩⟩).user_id = 1 ∧
      (applyBody
          { id := 2, first_name := "c", last_name := "d", email := "f", phone := "q",
            date_of_birth := ⟨1990, 1, 1⟩, user_id := 1, created_at := 4 }
          ⟨"n", "m", "g", "r", ⟨1991, 2, 2⟩⟩).created_at = 4 := by
  have hh : ((DB.mk
      [{ id := 1, first_name := "a", last_name := "b", email := "e", phone := "p",
         date_of_birth := ⟨1994, 5, 5⟩, user_id := 1, created_at := 3 },
       { id := 2, first_name := "c", last_name := "d", email := "f", phone := "q",
         date_of_birth := ⟨1990, 1, 1⟩, user_id := 1, created_at := 4 }] 3 7).rows.filter
      (fun r => r.id == 2 && r.user_id == (1 : Nat))).head? =
      some { id := 2, first_name := "c", last_name := "d", email := "f", phone := "q",
             date_of_birth := ⟨1990, 1, 1⟩, user_id := 1, created_at := 4 } := by decide
  obtain ⟨k, hk1, hk2, e1, e2, e3, _, _, _, _, _, _⟩ :=
    update_contact_frame 2 ⟨"n", "m", "g", "r", ⟨1991, 2, 2⟩⟩ ⟨1⟩
      (DB.mk
        [{ id := 1, first_name := "a", last_name := "b", email := "e", phone := "p",
           date_of_birth := ⟨1994, 5, 5⟩, user_id := 1, created_at := 3 },
         { id := 2, first_name := "c", last_name := "d", email := "f", phone := "q",
           date_of_birth := ⟨1990, 1, 1⟩, user_id := 1, created_at := 4 }] 3 7)
      { id := 2, first_name := "c", last_name := "d", email := "f", phone := "q",
        date_of_birth := ⟨1990, 1, 1⟩, user_id := 1, created_at := 4 } hh
  exact ⟨hh, k, hk1, hk2, e1, e2, e3⟩
